import Mathlib

/-!
Verification development for the nextpost scheduler backend.

Shallow embedding of `backend/scheduler/models.py`, `backend/scheduler/tasks.py`,
`backend/scheduler/views.py` and `backend/scheduler/integrations/publisher.py`.
Timestamps are modelled as natural numbers, Django model rows as Lean structures,
and the Celery task as an explicit state-passing function over an optional
persisted `Post` row.  Python dictionaries with `.get` defaults become structures
with `Option` fields.
-/

set_option maxRecDepth 40000

namespace NextPost

/-- `PostStatus` text choices from `models.py`. -/
inductive PostStatus
  | draft
  | scheduled
  | publishing
  | published
  | failed
  | cancelled
deriving DecidableEq, Repr

/-- `SocialAccount` row: the fields read or written by the publish pipeline.
`last_used_at` is an optional timestamp. -/
structure SocialAccount where
  platform : String
  is_active : Bool
  access_token : String
  posts_count : Nat
  last_used_at : Option Nat
deriving DecidableEq, Repr

/-- `Post` row: fields read or written by the publish pipeline.  The media
many-to-many is abstracted to the counts of linked image and video assets, and
the legacy `image`/`video` file fields to their presence. -/
structure Post where
  content : String
  social_account : Option SocialAccount
  scheduled_time : Option Nat
  status : PostStatus
  image : Bool
  video : Bool
  mediaImages : Nat
  mediaVideos : Nat
  celery_task_id : Option String
  platform_post_id : Option String
  error_message : Option String
  published_at : Option Nat
deriving DecidableEq, Repr

/-- A platform rules dictionary (`models.py Post.get_platform_rules`): keys that
may be absent are `Option` fields, `required_assets` defaults to `[]`. -/
structure PlatformRules where
  max_length : Option Nat
  supports_images : Option Bool
  supports_videos : Option Bool
  max_images : Option Nat
  max_hashtags : Option Nat
  required_assets : List String
  max_video_duration : Option Nat
deriving DecidableEq, Repr

/-- The empty dictionary `{}` returned when the post has no social account. -/
def emptyRules : PlatformRules :=
  { max_length := none, supports_images := none, supports_videos := none,
    max_images := none, max_hashtags := none, required_assets := [],
    max_video_duration := none }

/-- The fallback value of `rules_map.get(platform, {...})` in
`Post.get_platform_rules`. -/
def defaultRules : PlatformRules :=
  { max_length := some 1000, supports_images := some true,
    supports_videos := some false, max_images := none, max_hashtags := none,
    required_assets := [], max_video_duration := none }

/-- `rules_map.get(platform, default)` from `Post.get_platform_rules`
(`models.py`).  The `SocialPlatform` enum members compare equal to their
stored string values. -/
def rulesMapGet (platform : String) : PlatformRules :=
  if platform = "facebook_page" then
    { max_length := some 63206, supports_images := some true,
      supports_videos := some true, max_images := some 10,
      max_hashtags := some 30, required_assets := [],
      max_video_duration := none }
  else if platform = "instagram_feed" then
    { max_length := some 2200, supports_images := some true,
      supports_videos := some true, max_images := some 10,
      max_hashtags := some 30, required_assets := ["image"],
      max_video_duration := none }
  else if platform = "instagram_story" then
    { max_length := some 2200, supports_images := some true,
      supports_videos := some true, max_images := some 1,
      max_hashtags := none, required_assets := ["image"],
      max_video_duration := some 15 }
  else if platform = "twitter_post" then
    { max_length := some 280, supports_images := some true,
      supports_videos := some true, max_images := some 4,
      max_hashtags := some 10, required_assets := [],
      max_video_duration := none }
  else if platform = "linkedin_personal" then
    { max_length := some 3000, supports_images := some true,
      supports_videos := some true, max_images := some 9,
      max_hashtags := none, required_assets := [],
      max_video_duration := none }
  else if platform = "tiktok_post" then
    { max_length := some 2200, supports_images := none,
      supports_videos := some true, max_images := none,
      max_hashtags := none, required_assets := ["video"],
      max_video_duration := some 180 }
  else defaultRules

/-- `Post.get_platform_rules` (`models.py`): `{}` when no social account,
otherwise the rules-map lookup with the conservative fallback. -/
def Post.get_platform_rules (p : Post) : PlatformRules :=
  match p.social_account with
  | none => emptyRules
  | some acct => rulesMapGet acct.platform

/-- `self.image or self.media_assets.filter(file_type='image').exists()`. -/
def Post.has_image (p : Post) : Bool :=
  p.image || decide (0 < p.mediaImages)

/-- `self.video or self.media_assets.filter(file_type='video').exists()`. -/
def Post.has_video (p : Post) : Bool :=
  p.video || decide (0 < p.mediaVideos)

/-- The content-length violation message
`f"Contenu trop long ({content_length}/{max_length} caractères)"`. -/
def lengthViolation (contentLength maxLength : Nat) : String :=
  "Contenu trop long (" ++ toString contentLength ++ "/" ++
    toString maxLength ++ " caractères)"

/-- `Post.validate_for_platform` (`models.py`): missing account short-circuits
with a single violation; otherwise content length, required image, required
video are checked in that order.  `is_active` is not consulted here. -/
def Post.validate_for_platform (p : Post) : List String :=
  match p.social_account with
  | none => ["Aucun compte social associé"]
  | some _ =>
    let rules := p.get_platform_rules
    let contentLength := p.content.length
    let maxLength := rules.max_length.getD 1000
    let lengthErrors :=
      if maxLength < contentLength then
        [lengthViolation contentLength maxLength]
      else []
    let imageErrors :=
      if rules.required_assets.contains "image" && !p.has_image then
        ["Une image est requise pour cette plateforme"]
      else []
    let videoErrors :=
      if rules.required_assets.contains "video" && !p.has_video then
        ["Une vidéo est requise pour cette plateforme"]
      else []
    lengthErrors ++ imageErrors ++ videoErrors

/-- `UniversalPublisher.validate_post_for_publication` (`publisher.py`):
only a missing account returns early; an inactive account or missing token
appends a violation and the content checks still run afterwards. -/
def validate_post_for_publication (p : Post) : List String :=
  match p.social_account with
  | none => ["Aucun compte social associé"]
  | some acct =>
    let activeErrors :=
      if !acct.is_active then ["Le compte social n'est pas actif"] else []
    let tokenErrors :=
      if acct.access_token = "" then
        ["Token d'accès manquant pour le compte social"]
      else []
    let platformErrors := p.validate_for_platform
    let instagramErrors :=
      if (acct.platform = "instagram_feed" || acct.platform = "instagram_story")
          && p.mediaImages = 0 && !p.image then
        ["Instagram nécessite au moins une image"]
      else []
    activeErrors ++ tokenErrors ++ platformErrors ++ instagramErrors

/-- Result dictionary of `_publish_to_platform` (`tasks.py`). -/
structure PublishResult where
  success : Bool
  platform_post_id : Option String
  published_url : Option String
  error : Option String
deriving DecidableEq, Repr

/-- `_publish_to_platform` (`tasks.py`).  `mediaCount` is the number of linked
media assets, `uuidHex` stands for `uuid.uuid4().hex[:8]`. -/
def publish_to_platform (platform : String) (content : String)
    (mediaCount : Nat) (uuidHex : String) : PublishResult :=
  if platform = "instagram_story" ∧ mediaCount = 0 then
    { success := false, platform_post_id := none, published_url := none,
      error := some "Instagram Stories require at least one media file" }
  else if (platform = "facebook_page" ∨ platform = "facebook_group")
      ∧ 63206 < content.length then
    { success := false, platform_post_id := none, published_url := none,
      error := some "Facebook posts cannot exceed 63,206 characters" }
  else if platform = "twitter" ∧ 280 < content.length then
    { success := false, platform_post_id := none, published_url := none,
      error := some "Twitter posts cannot exceed 280 characters" }
  else
    let pid := platform ++ "_" ++ uuidHex
    { success := true, platform_post_id := some pid,
      published_url := some ("https://" ++ platform ++ ".com/posts/" ++ pid),
      error := none }

/-- Python `repr` of a string: wrapped in single quotes.  (Escaping of quote
characters inside the string is not modelled; no proof depends on it.) -/
def pyRepr (s : String) : String := "'" ++ s ++ "'"

/-- Tail of the Python `repr` of a list of strings. -/
def pyListReprAux : List String → String
  | [] => ""
  | v :: vs => ", " ++ pyRepr v ++ pyListReprAux vs

/-- Python `repr` of a list of strings, as interpolated by an f-string. -/
def pyListRepr : List String → String
  | [] => "[]"
  | v :: vs => "[" ++ pyRepr v ++ pyListReprAux vs ++ "]"

/-- `str()` of a Django `ValidationError` built from one message string:
`repr(list(self))`. -/
def pyStrValidationError (msg : String) : String := pyListRepr [msg]

/-- Value returned (or exception raised) by one invocation of the
`publish_post` Celery task. -/
inductive TaskResult
  | skippedNotScheduled
  | errorPostNotFound
  | publishedResult (platform_post_id : Option String) (published_at : Nat)
  | failedResult (error : String)
  | retryRaised (countdown : Nat)
deriving DecidableEq, Repr

/-- The `except Exception` handler of `publish_post` (`tasks.py`): the
transaction containing the earlier writes has rolled back, the post is
re-fetched in its pre-transaction state, marked FAILED with
`f"Publishing error: {str(e)}"`, and `self.retry(countdown=60*(retries+1))`
is raised. -/
def exceptHandler (post : Post) (excMsg : String) (retries : Nat) :
    Option Post × TaskResult :=
  let post1 := { post with
    status := PostStatus.failed,
    error_message := some ("Publishing error: " ++ pyStrValidationError excMsg) }
  (some post1, TaskResult.retryRaised (60 * (retries + 1)))

/-- The `publish_post` Celery task (`tasks.py`), as a function from the
persisted post row (and the ambient inputs: retry count, current time, the
fresh uuid hex used by the platform dispatch) to the new row and the
task outcome.  Writes inside `transaction.atomic()` persist only on the
paths that return normally; on the exception paths the handler works on the
pre-transaction row. -/
def publish_post (db : Option Post) (force_publish : Bool) (retries : Nat)
    (now : Nat) (uuidHex : String) : Option Post × TaskResult :=
  match db with
  | none => (none, TaskResult.errorPostNotFound)
  | some post =>
    if force_publish = false ∧ post.status ≠ PostStatus.scheduled then
      (some post, TaskResult.skippedNotScheduled)
    else
      match post.social_account with
      | none =>
        exceptHandler post "Social account is not active or missing" retries
      | some acct =>
        if acct.is_active = false then
          exceptHandler post "Social account is not active or missing" retries
        else
          let post1 := { post with status := PostStatus.publishing }
          let validationErrors := post1.validate_for_platform
          if validationErrors ≠ [] then
            exceptHandler post
              ("Post validation failed: " ++ pyListRepr validationErrors)
              retries
          else
            let result := publish_to_platform acct.platform post1.content
              (post1.mediaImages + post1.mediaVideos) uuidHex
            if result.success then
              let acct1 := { acct with
                posts_count := acct.posts_count + 1,
                last_used_at := some now }
              let post2 := { post1 with
                status := PostStatus.published,
                published_at := some now,
                platform_post_id := result.platform_post_id,
                error_message := none,
                social_account := some acct1 }
              (some post2, TaskResult.publishedResult result.platform_post_id now)
            else
              let err := result.error.getD "Unknown publishing error"
              let post2 := { post1 with
                status := PostStatus.failed,
                error_message := some err }
              (some post2, TaskResult.failedResult err)

/-- An HTTP-level outcome of a ViewSet action. -/
inductive ApiResponse (α : Type)
  | ok (value : α)
  | badRequest (error : String)
deriving DecidableEq, Repr

/-- `PostViewSet.publish_now` (`views.py`): reject PUBLISHED and PUBLISHING,
validate, then queue `publish_post.delay(post.id, force_publish=True)`. -/
def publish_now (post : Post) : ApiResponse Unit :=
  if post.status = PostStatus.published then
    ApiResponse.badRequest "This post is already published"
  else if post.status = PostStatus.publishing then
    ApiResponse.badRequest "This post is currently being published"
  else if post.validate_for_platform ≠ [] then
    ApiResponse.badRequest "Post validation failed"
  else
    ApiResponse.ok ()

/-- `PostViewSet.cancel_schedule` (`views.py`): only `status` (and
`updated_at`) are written; `celery_task_id` is left untouched and the Celery
task is not revoked. -/
def cancel_schedule_view (post : Post) : ApiResponse Post :=
  if post.status ≠ PostStatus.scheduled ∧ post.status ≠ PostStatus.publishing then
    ApiResponse.badRequest "This post is not scheduled or being published"
  else
    ApiResponse.ok { post with status := PostStatus.cancelled }

/-- `Post.schedule_publication` (`models.py`): if the scheduled time is in the
future, register the Celery task and store its id (`newTaskId` stands for the
id returned by `apply_async`). -/
def Post.schedule_publication (p : Post) (now : Nat) (newTaskId : String) :
    Post :=
  match p.scheduled_time with
  | some t => if now < t then { p with celery_task_id := some newTaskId } else p
  | none => p

/-- `Post.save` (`models.py`): auto-schedule a draft with a scheduled time and
no outstanding task, then register the Celery task after saving. -/
def Post.save (p : Post) (now : Nat) (newTaskId : String) : Post :=
  let p1 :=
    if p.scheduled_time.isSome ∧ p.status = PostStatus.draft
        ∧ p.celery_task_id = none then
      { p with status := PostStatus.scheduled }
    else p
  if p1.status = PostStatus.scheduled ∧ p1.scheduled_time.isSome
      ∧ p1.celery_task_id = none then
    p1.schedule_publication now newTaskId
  else p1

/-- `Post.cancel_schedule` (`models.py`): revoke the Celery task, clear the
task id and return to DRAFT. -/
def Post.cancel_schedule (p : Post) : Post :=
  if p.celery_task_id.isSome then
    { p with celery_task_id := none, status := PostStatus.draft }
  else p

/-- The stored values of the `SocialPlatform` text choices (`models.py`). -/
def socialPlatformValues : List String :=
  ["facebook_page", "facebook_group", "instagram_feed", "instagram_story",
   "instagram_reels", "twitter_post", "linkedin_personal", "linkedin_company",
   "tiktok_post", "youtube_short"]

/-- Substring containment, at the level of character lists. -/
def strContains (s pat : String) : Prop := pat.data <:+: s.data

/-- The spec's description of the fallback rules ("a short max length and no
media support").  Modelled from the spec's words, to be compared with the
code's `defaultRules`. -/
def specNoMediaSupport (r : PlatformRules) : Prop :=
  r.supports_images ≠ some true ∧ r.supports_videos ≠ some true

/-- A post passing every check of `validate_for_platform`: account present,
content within the platform limit, required media present. -/
def semanticValid (p : Post) : Prop :=
  p.social_account.isSome = true
  ∧ p.content.length ≤ (p.get_platform_rules).max_length.getD 1000
  ∧ ((p.get_platform_rules).required_assets.contains "image" = true →
      p.has_image = true)
  ∧ ((p.get_platform_rules).required_assets.contains "video" = true →
      p.has_video = true)

/-- An active Twitter/X account. -/
def twitterAccount : SocialAccount :=
  { platform := "twitter_post", is_active := true, access_token := "tok",
    posts_count := 3, last_used_at := none }

/-- The same account, deactivated. -/
def inactiveTwitterAccount : SocialAccount :=
  { twitterAccount with is_active := false }

/-- A short valid draft post targeting the Twitter account. -/
def basePost : Post :=
  { content := "hello", social_account := some twitterAccount,
    scheduled_time := none, status := PostStatus.draft, image := false,
    video := false, mediaImages := 0, mediaVideos := 0,
    celery_task_id := none, platform_post_id := none, error_message := none,
    published_at := none }

/-- A SCHEDULED post whose scheduled time (1000) is in the future of the
invocation times used below. -/
def scheduledFuturePost : Post :=
  { basePost with
      status := PostStatus.scheduled,
      scheduled_time := some 1000 }

/-- 300 characters, over Twitter's 280-character limit. -/
def longContent : String := String.mk (List.replicate 300 'a')

/-- A SCHEDULED post whose content exceeds the platform limit. -/
def overlongScheduledPost : Post :=
  { scheduledFuturePost with content := longContent }

/-- An overlong post on a deactivated account. -/
def c8post : Post :=
  { basePost with
      content := longContent,
      social_account := some inactiveTwitterAccount }

/-- A CANCELLED post (otherwise valid). -/
def cancelledPost : Post :=
  { basePost with status := PostStatus.cancelled }

/-- A PUBLISHED post. -/
def publishedPost : Post :=
  { basePost with status := PostStatus.published }

/-- A draft with a future scheduled time and no outstanding task, as handed
to `Post.save` at creation. -/
def draftSchedulingPost : Post :=
  { basePost with scheduled_time := some 3600 }

/-- What the API cancel endpoint produces from the freshly saved post. -/
def c6ViewCancelled : Post :=
  { Post.save draftSchedulingPost 0 "tid-1" with status := PostStatus.cancelled }

/-- The status written before validation does not influence validation. -/
theorem validate_status_irrel (p : Post) (s : PostStatus) :
    Post.validate_for_platform { p with status := s }
      = p.validate_for_platform := rfl

/-- With force false and a status other than SCHEDULED, the task returns
Skipped and writes nothing. -/
theorem publish_post_skip (post : Post) (retries now : Nat) (u : String)
    (h : post.status ≠ PostStatus.scheduled) :
    publish_post (some post) false retries now u
      = (some post, TaskResult.skippedNotScheduled) := by
  simp [publish_post, h]

/-- A missing or inactive account sends the task into the exception handler
with the message of the `ValidationError` raised at tasks.py line 44. -/
theorem publish_post_account_problem (post : Post) (force : Bool)
    (retries now : Nat) (u : String)
    (hguard : force = true ∨ post.status = PostStatus.scheduled)
    (hacct : post.social_account = none
      ∨ ∃ acct, post.social_account = some acct ∧ acct.is_active = false) :
    publish_post (some post) force retries now u
      = exceptHandler post "Social account is not active or missing" retries := by
  have hcond : ¬(force = false ∧ post.status ≠ PostStatus.scheduled) := by
    rcases hguard with h | h <;> simp [h]
  rcases hacct with h | ⟨acct, hsome, hinact⟩
  · simp [publish_post, hcond, h]
  · simp [publish_post, hcond, hsome, hinact]

/-- A nonempty violation list sends the task into the exception handler with
the message of the `ValidationError` raised at tasks.py line 58; the earlier
PUBLISHING/FAILED writes roll back with the transaction. -/
theorem publish_post_validation_failed (post : Post) (acct : SocialAccount)
    (force : Bool) (retries now : Nat) (u : String)
    (hguard : force = true ∨ post.status = PostStatus.scheduled)
    (hacct : post.social_account = some acct) (hact : acct.is_active = true)
    (hval : post.validate_for_platform ≠ []) :
    publish_post (some post) force retries now u
      = exceptHandler post
          ("Post validation failed: " ++ pyListRepr post.validate_for_platform)
          retries := by
  obtain ⟨c, sa, t, st, im, vi, mi, mv, ct, pp, em, pa⟩ := post
  have hcond : ¬(force = false
      ∧ Post.status ⟨c, sa, t, st, im, vi, mi, mv, ct, pp, em, pa⟩
          ≠ PostStatus.scheduled) := by
    rcases hguard with h | h
    · simp [h]
    · simp at h
      simp [h]
  simp only [Post.social_account] at hacct
  subst hacct
  have hv : Post.validate_for_platform
      ⟨c, some acct, t, PostStatus.publishing, im, vi, mi, mv, ct, pp, em, pa⟩
        ≠ [] := hval
  simp [publish_post, hcond, hact, hv]
  rfl

/-- A dispatch result with `success` is the final else-branch of
`_publish_to_platform`. -/
theorem publish_to_platform_success (pf c : String) (m : Nat) (u : String)
    (h : (publish_to_platform pf c m u).success = true) :
    publish_to_platform pf c m u
      = { success := true, platform_post_id := some (pf ++ "_" ++ u),
          published_url :=
            some ("https://" ++ pf ++ ".com/posts/" ++ (pf ++ "_" ++ u)),
          error := none } := by
  by_cases h1 : pf = "instagram_story" ∧ m = 0
  · simp [publish_to_platform, h1] at h
  · by_cases h2 : (pf = "facebook_page" ∨ pf = "facebook_group")
        ∧ 63206 < c.length
    · simp [publish_to_platform, h1, h2] at h
    · by_cases h3 : pf = "twitter" ∧ 280 < c.length
      · simp [publish_to_platform, h1, h2, h3] at h
      · simp [publish_to_platform, h1, h2, h3]

/-- On the happy path the task commits, in one update, the published row and
the incremented account counters. -/
theorem publish_post_success (post : Post) (acct : SocialAccount) (force : Bool)
    (retries now : Nat) (u : String)
    (hguard : force = true ∨ post.status = PostStatus.scheduled)
    (hacct : post.social_account = some acct) (hact : acct.is_active = true)
    (hval : post.validate_for_platform = [])
    (hsucc : (publish_to_platform acct.platform post.content
        (post.mediaImages + post.mediaVideos) u).success = true) :
    publish_post (some post) force retries now u
      = (some { post with
            status := PostStatus.published,
            published_at := some now,
            platform_post_id := some (acct.platform ++ "_" ++ u),
            error_message := none,
            social_account := some { acct with
              posts_count := acct.posts_count + 1,
              last_used_at := some now } },
         TaskResult.publishedResult (some (acct.platform ++ "_" ++ u)) now) := by
  have hplat := publish_to_platform_success acct.platform post.content
    (post.mediaImages + post.mediaVideos) u hsucc
  obtain ⟨c, sa, t, st, im, vi, mi, mv, ct, pp, em, pa⟩ := post
  have hcond : ¬(force = false
      ∧ Post.status ⟨c, sa, t, st, im, vi, mi, mv, ct, pp, em, pa⟩
          ≠ PostStatus.scheduled) := by
    rcases hguard with h | h
    · simp [h]
    · simp at h
      simp [h]
  simp only [Post.social_account] at hacct
  subst hacct
  simp only [Post.content, Post.mediaImages, Post.mediaVideos] at hplat
  have hv : Post.validate_for_platform
      ⟨c, some acct, t, PostStatus.publishing, im, vi, mi, mv, ct, pp, em, pa⟩
        = [] := hval
  simp [publish_post, hcond, hact, hv, hplat]

/-- A concatenation with an inner underscore is nonempty. -/
theorem platform_pid_ne_empty (pf u : String) : pf ++ "_" ++ u ≠ "" := by
  intro h
  have hlen := congrArg String.length h
  have h1 : ("_" : String).length = 1 := rfl
  have h2 : ("" : String).length = 0 := rfl
  simp [String.length_append, h1, h2] at hlen

theorem data_empty_eq : ("" : String).data = [] := rfl

/-- The violation at the head of the list survives, as a substring, the
f-string interpolation, the `str()` of the `ValidationError`, and the
"Publishing error: " prefix of the exception handler. -/
theorem contains_exceptMsg (v : String) (rest : List String) :
    strContains
      ("Publishing error: "
        ++ pyStrValidationError
            ("Post validation failed: " ++ pyListRepr (v :: rest)))
      v := by
  refine ⟨("Publishing error: " ++ "[" ++ "'"
      ++ ("Post validation failed: " ++ ("[" ++ "'"))).data,
    ("'" ++ pyListReprAux rest ++ "]" ++ ("'" ++ "]")).data, ?_⟩
  simp [pyStrValidationError, pyListRepr, pyListReprAux, pyRepr,
    String.data_append, List.append_assoc, data_empty_eq]

/-- When the account is present and the content is over the limit, the
violation list starts with the content-length violation. -/
theorem validate_overlong (p : Post) (acct : SocialAccount)
    (hacct : p.social_account = some acct)
    (hlen : (p.get_platform_rules).max_length.getD 1000 < p.content.length) :
    ∃ rest, p.validate_for_platform
      = lengthViolation p.content.length
          ((p.get_platform_rules).max_length.getD 1000) :: rest := by
  refine ⟨(if (p.get_platform_rules).required_assets.contains "image"
        && !p.has_image then
      ["Une image est requise pour cette plateforme"] else [])
    ++ (if (p.get_platform_rules).required_assets.contains "video"
        && !p.has_video then
      ["Une vidéo est requise pour cette plateforme"] else []), ?_⟩
  simp [Post.validate_for_platform, hacct, hlen]

/-- C1: invoking the publish task with force false on a post whose persisted
status is not SCHEDULED returns the Skipped(not_scheduled) outcome, raises no
error, and leaves the post row — status, error_message and every other
field — unchanged.  This is the guard that tolerates duplicate deliveries
and tasks firing after a cancel. -/
theorem C1_skip_when_not_scheduled (post : Post) (retries now : Nat)
    (u : String) (h : post.status ≠ PostStatus.scheduled) :
    publish_post (some post) false retries now u
      = (some post, TaskResult.skippedNotScheduled) :=
  publish_post_skip post retries now u h

/-- C1 witness: the task fired on an already CANCELLED post. -/
theorem C1_skip_when_not_scheduled_witness :
    publish_post (some cancelledPost) false 0 5 "u1"
      = (some cancelledPost, TaskResult.skippedNotScheduled) :=
  C1_skip_when_not_scheduled cancelledPost 0 5 "u1" (by decide)

/-- C2 counterexample: a SCHEDULED post whose scheduled_time (1000) is
strictly after the invocation time (0) is not deferred: with force false the
task runs validation, invokes the platform dispatch, and transitions the post
to PUBLISHED — there is no Deferred outcome in the code. -/
theorem C2_counterexample :
    (publish_post (some scheduledFuturePost) false 0 0 "abcd1234").1.map
        Post.status = some PostStatus.published
    ∧ (publish_post (some scheduledFuturePost) false 0 0 "abcd1234").2
        = TaskResult.publishedResult (some "twitter_post_abcd1234") 0
    ∧ scheduledFuturePost.scheduled_time = some 1000 := by decide

/-- C2 (amended): the publish task never inspects scheduled_time and has no
Deferred outcome: with force false, a SCHEDULED post whose scheduled_time is
strictly in the future is processed immediately — validation runs, the
platform dispatch is called, and on dispatch success the post transitions to
PUBLISHED. -/
theorem C2_publishes_despite_future_time (post : Post) (acct : SocialAccount)
    (t retries now : Nat) (u : String)
    (hst : post.status = PostStatus.scheduled)
    (hfuture : post.scheduled_time = some t) (hnow : now < t)
    (hacct : post.social_account = some acct) (hact : acct.is_active = true)
    (hval : post.validate_for_platform = [])
    (hsucc : (publish_to_platform acct.platform post.content
        (post.mediaImages + post.mediaVideos) u).success = true) :
    (publish_post (some post) false retries now u).1.map Post.status
        = some PostStatus.published
    ∧ (publish_post (some post) false retries now u).2
        = TaskResult.publishedResult (some (acct.platform ++ "_" ++ u)) now := by
  have h := publish_post_success post acct false retries now u (Or.inr hst)
    hacct hact hval hsucc
  rw [h]
  exact ⟨rfl, rfl⟩

/-- C2 witness: the concrete early firing at time 0 of a post scheduled for
time 1000. -/
theorem C2_publishes_despite_future_time_witness :
    (publish_post (some scheduledFuturePost) false 0 0 "abcd1234").2
      = TaskResult.publishedResult (some ("twitter_post" ++ "_" ++ "abcd1234"))
          0 :=
  (C2_publishes_despite_future_time scheduledFuturePost twitterAccount 1000 0 0
    "abcd1234" (by decide) (by decide) (by decide) (by decide) (by decide)
    (by decide) (by decide)).2

/-- C3 counterexample: a validation failure (content over the Twitter limit)
does schedule an automatic Celery retry — the invocation ends in
`self.retry(countdown=60·(retries+1))` (here 180 with retries = 2), contrary
to the claim that no automatic retry is scheduled. -/
theorem C3_counterexample :
    (publish_post (some overlongScheduledPost) false 2 0 "u3").2
      = TaskResult.retryRaised 180 := by decide

/-- C3 (amended): a validation-class or auth-class failure (violations,
missing or inactive account) marks the post FAILED, but an automatic Celery
retry IS scheduled (`self.retry` with countdown 60·(retries+1), bounded by
max_retries 3); because the status is then no longer SCHEDULED, a retried
invocation without force returns Skipped, so only a fresh user action leads
to an actual re-attempt. -/
theorem C3_failed_then_retry_scheduled (post : Post)
    (retries retries2 now : Nat) (u u2 : String)
    (hst : post.status = PostStatus.scheduled)
    (hfail : post.social_account = none
      ∨ (∃ acct, post.social_account = some acct ∧ acct.is_active = false)
      ∨ post.validate_for_platform ≠ []) :
    (publish_post (some post) false retries now u).2
        = TaskResult.retryRaised (60 * (retries + 1))
    ∧ (publish_post (some post) false retries now u).1.map Post.status
        = some PostStatus.failed
    ∧ ∀ p1, (publish_post (some post) false retries now u).1 = some p1 →
        publish_post (some p1) false retries2 now u2
          = (some p1, TaskResult.skippedNotScheduled) := by
  have key : ∃ msg, publish_post (some post) false retries now u
      = exceptHandler post msg retries := by
    rcases hfail with h | ⟨acct, hsome, hinact⟩ | hvne
    · exact ⟨_, publish_post_account_problem post false retries now u
        (Or.inr hst) (Or.inl h)⟩
    · exact ⟨_, publish_post_account_problem post false retries now u
        (Or.inr hst) (Or.inr ⟨acct, hsome, hinact⟩)⟩
    · cases hsa : post.social_account with
      | none =>
        exact ⟨_, publish_post_account_problem post false retries now u
          (Or.inr hst) (Or.inl hsa)⟩
      | some acct =>
        by_cases hia : acct.is_active = true
        · exact ⟨_, publish_post_validation_failed post acct false retries now u
            (Or.inr hst) hsa hia hvne⟩
        · refine ⟨_, publish_post_account_problem post false retries now u
            (Or.inr hst) (Or.inr ⟨acct, hsa, ?_⟩)⟩
          simpa using hia
  obtain ⟨msg, hkey⟩ := key
  refine ⟨by rw [hkey]; rfl, by rw [hkey]; rfl, ?_⟩
  intro p1 hp1
  rw [hkey] at hp1
  simp [exceptHandler] at hp1
  subst hp1
  exact publish_post_skip _ _ _ _ (by simp)

/-- C3 witness: the overlong scheduled post ends FAILED. -/
theorem C3_failed_then_retry_scheduled_witness :
    (publish_post (some overlongScheduledPost) false 0 0 "u3b").1.map
      Post.status = some PostStatus.failed := by
  have h := C3_failed_then_retry_scheduled overlongScheduledPost 0 1 0 "u3b"
    "u3c" (by decide) (Or.inr (Or.inr (by decide)))
  exact h.2.1

/-- C4: when the platform dispatch reports success, the task commits — as a
single row update — status PUBLISHED, published_at = now, a non-empty
platform_post_id, a cleared error_message, and the target account's
posts_count incremented by exactly one with last_used_at refreshed. -/
theorem C4_success_commits_all (post : Post) (acct : SocialAccount)
    (force : Bool) (retries now : Nat) (u : String)
    (hguard : force = true ∨ post.status = PostStatus.scheduled)
    (hacct : post.social_account = some acct) (hact : acct.is_active = true)
    (hval : post.validate_for_platform = [])
    (hsucc : (publish_to_platform acct.platform post.content
        (post.mediaImages + post.mediaVideos) u).success = true) :
    publish_post (some post) force retries now u
      = (some { post with
            status := PostStatus.published,
            published_at := some now,
            platform_post_id := some (acct.platform ++ "_" ++ u),
            error_message := none,
            social_account := some { acct with
              posts_count := acct.posts_count + 1,
              last_used_at := some now } },
         TaskResult.publishedResult (some (acct.platform ++ "_" ++ u)) now)
    ∧ acct.platform ++ "_" ++ u ≠ "" :=
  ⟨publish_post_success post acct force retries now u hguard hacct hact hval
    hsucc,
   platform_pid_ne_empty acct.platform u⟩

/-- C4 witness: a successful publish of the short scheduled post. -/
theorem C4_success_commits_all_witness :
    (publish_post (some scheduledFuturePost) false 1 9 "beef0001").2
      = TaskResult.publishedResult (some ("twitter_post" ++ "_" ++ "beef0001"))
          9
    ∧ "twitter_post" ++ "_" ++ "beef0001" ≠ "" := by
  have h := C4_success_commits_all scheduledFuturePost twitterAccount false 1 9
    "beef0001" (Or.inr (by decide)) (by decide) (by decide) (by decide)
    (by decide)
  exact ⟨by rw [h.1]; rfl, h.2⟩

/-- C5: publishing a post whose content exceeds the target platform's
max_length (account present and active, not-scheduled guard passed) always
ends with status FAILED and an error_message containing the actual/limit
character counts; the platform dispatch is never consulted — the outcome is
the validation-failure retry, identical for every value of the dispatch's
uuid input. -/
theorem C5_overlong_fails_without_adapter (post : Post) (acct : SocialAccount)
    (force : Bool) (retries now : Nat) (u u2 : String)
    (hguard : force = true ∨ post.status = PostStatus.scheduled)
    (hacct : post.social_account = some acct) (hact : acct.is_active = true)
    (hlen : (post.get_platform_rules).max_length.getD 1000
        < post.content.length) :
    (publish_post (some post) force retries now u).1.map Post.status
        = some PostStatus.failed
    ∧ (publish_post (some post) force retries now u).2
        = TaskResult.retryRaised (60 * (retries + 1))
    ∧ (∃ msg, (publish_post (some post) force retries now u).1.bind
          Post.error_message = some msg
        ∧ strContains msg (lengthViolation post.content.length
            ((post.get_platform_rules).max_length.getD 1000)))
    ∧ publish_post (some post) force retries now u
        = publish_post (some post) force retries now u2 := by
  obtain ⟨rest, hrest⟩ := validate_overlong post acct hacct hlen
  have hvne : post.validate_for_platform ≠ [] := by rw [hrest]; simp
  have hkey := publish_post_validation_failed post acct force retries now u
    hguard hacct hact hvne
  have hkey2 := publish_post_validation_failed post acct force retries now u2
    hguard hacct hact hvne
  refine ⟨by rw [hkey]; rfl, by rw [hkey]; rfl, ?_, by rw [hkey, hkey2]⟩
  rw [hkey]
  refine ⟨_, rfl, ?_⟩
  rw [hrest]
  exact contains_exceptMsg _ rest

/-- C5 witness: a force publish of the overlong post at retry count 0. -/
theorem C5_overlong_fails_without_adapter_witness :
    (publish_post (some overlongScheduledPost) true 0 4 "w5").2
      = TaskResult.retryRaised 60 := by
  have h := C5_overlong_fails_without_adapter overlongScheduledPost
    twitterAccount true 0 4 "w5" "w5b" (Or.inl rfl) (by decide) (by decide)
    (by decide)
  exact h.2.1

/-- C6 counterexample: a post created with a future scheduled_time is
SCHEDULED with task handle "tid-1", but cancelling it through the API
endpoint yields status CANCELLED with the task handle still non-null — the
endpoint writes only the status — refuting both the null-handle-after-cancel
round trip and the non-null-iff-SCHEDULED invariant. -/
theorem C6_counterexample :
    cancel_schedule_view (Post.save draftSchedulingPost 0 "tid-1")
        = ApiResponse.ok c6ViewCancelled
    ∧ c6ViewCancelled.status = PostStatus.cancelled
    ∧ c6ViewCancelled.celery_task_id = some "tid-1"
    ∧ ¬(c6ViewCancelled.celery_task_id ≠ none
          ↔ c6ViewCancelled.status = PostStatus.scheduled) := by decide

/-- C6 (amended): creating a draft with a future scheduled_time yields status
SCHEDULED with a non-null task handle, and the model's cancel_schedule
returns it to DRAFT with a null handle; but the API cancel endpoint only
flips status to CANCELLED and leaves the task handle set, so the
non-null-iff-SCHEDULED invariant does not hold in every reachable state. -/
theorem C6_roundtrip_and_view_cancel (p : Post) (now t : Nat) (tid : String)
    (hdraft : p.status = PostStatus.draft) (htime : p.scheduled_time = some t)
    (hfut : now < t) (hnone : p.celery_task_id = none) :
    (Post.save p now tid).status = PostStatus.scheduled
    ∧ (Post.save p now tid).celery_task_id = some tid
    ∧ (Post.save p now tid).cancel_schedule.status = PostStatus.draft
    ∧ (Post.save p now tid).cancel_schedule.celery_task_id = none
    ∧ cancel_schedule_view (Post.save p now tid)
        = ApiResponse.ok
            { Post.save p now tid with status := PostStatus.cancelled }
    ∧ ({ Post.save p now tid with
          status := PostStatus.cancelled }).celery_task_id = some tid := by
  obtain ⟨c, sa, ts, st, im, vi, mi, mv, ct, pp, em, pa⟩ := p
  simp only [Post.status] at hdraft
  simp only [Post.scheduled_time] at htime
  simp only [Post.celery_task_id] at hnone
  subst hdraft
  subst htime
  subst hnone
  simp [Post.save, Post.schedule_publication, Post.cancel_schedule,
    cancel_schedule_view, hfut]

/-- C6 witness: creating the concrete draft at time 0 for time 3600. -/
theorem C6_roundtrip_and_view_cancel_witness :
    (Post.save draftSchedulingPost 0 "tid-9").status = PostStatus.scheduled
    ∧ (Post.save draftSchedulingPost 0 "tid-9").celery_task_id
        = some "tid-9" := by
  have h := C6_roundtrip_and_view_cancel draftSchedulingPost 0 3600 "tid-9"
    (by decide) (by decide) (by decide) (by decide)
  exact ⟨h.1, h.2.1⟩

/-- C7 counterexample: "youtube_short" is a declared platform kind outside
the rule map; the lookup returns the default, but that default has
supports_images = true, so it is not "no media support" as the claim
states. -/
theorem C7_counterexample :
    rulesMapGet "youtube_short" = defaultRules
    ∧ ¬ specNoMediaSupport (rulesMapGet "youtube_short") := by
  constructor
  · decide
  · intro hns
    exact hns.1 (by decide)

/-- C7 (amended): the rules lookup is total — every platform kind outside
the six-entry rule map receives the fallback rules with max_length 1000 and
supports_videos false, but with supports_images true (image support is not
withdrawn). -/
theorem C7_unknown_kind_default (platform : String)
    (h1 : platform ≠ "facebook_page") (h2 : platform ≠ "instagram_feed")
    (h3 : platform ≠ "instagram_story") (h4 : platform ≠ "twitter_post")
    (h5 : platform ≠ "linkedin_personal") (h6 : platform ≠ "tiktok_post") :
    rulesMapGet platform = defaultRules
    ∧ defaultRules.max_length = some 1000
    ∧ defaultRules.supports_images = some true
    ∧ defaultRules.supports_videos = some false := by
  refine ⟨?_, rfl, rfl, rfl⟩
  simp [rulesMapGet, h1, h2, h3, h4, h5, h6]

/-- C7 witness: the declared kind "instagram_reels" is outside the map. -/
theorem C7_unknown_kind_default_witness :
    rulesMapGet "instagram_reels" = defaultRules :=
  (C7_unknown_kind_default "instagram_reels" (by decide) (by decide)
    (by decide) (by decide) (by decide) (by decide)).1

/-- C8 counterexample: on an inactive account with overlong content, the
publisher-level validator reports the inactive-account violation and then
still runs the content checks (two violations, no short-circuit), while the
model-level validator does not check is_active at all and reports only the
length violation. -/
theorem C8_counterexample :
    validate_post_for_publication c8post
      = ["Le compte social n'est pas actif", lengthViolation 300 280]
    ∧ Post.validate_for_platform c8post = [lengthViolation 300 280] := by
  decide

/-- C8 (amended): validate_for_platform short-circuits with a single
violation only when the account is missing (it never checks is_active), then
checks content length, required image and required video in that order, and
returns the empty list iff the post passes those checks; the publisher-level
validator reports an inactive account as a leading violation but does not
short-circuit the content checks. -/
theorem C8_validation_order (p : Post) :
    (p.social_account = none →
        p.validate_for_platform = ["Aucun compte social associé"])
    ∧ (p.validate_for_platform = [] ↔ semanticValid p)
    ∧ (∀ acct, p.social_account = some acct → acct.is_active = false →
        (validate_post_for_publication p).head?
            = some "Le compte social n'est pas actif"
        ∧ ((p.get_platform_rules).max_length.getD 1000 < p.content.length →
            lengthViolation p.content.length
                ((p.get_platform_rules).max_length.getD 1000)
              ∈ validate_post_for_publication p)) := by
  refine ⟨?_, ?_, ?_⟩
  · intro h
    simp [Post.validate_for_platform, h]
  · cases hsa : p.social_account with
    | none => simp [Post.validate_for_platform, hsa, semanticValid]
    | some acct => simp [Post.validate_for_platform, hsa, semanticValid]
  · intro acct hsa hinact
    constructor
    · simp [validate_post_for_publication, hsa, hinact]
    · intro hlen
      obtain ⟨rest, hrest⟩ := validate_overlong p acct hsa hlen
      simp [validate_post_for_publication, hsa, hinact, hrest]

/-- C8 witness: the inactive overlong post exhibits the leading inactive
violation followed by the content-length violation. -/
theorem C8_validation_order_witness :
    (validate_post_for_publication c8post).head?
        = some "Le compte social n'est pas actif"
    ∧ lengthViolation 300 280 ∈ validate_post_for_publication c8post := by
  have h := (C8_validation_order c8post).2.2 inactiveTwitterAccount (by decide)
    (by decide)
  refine ⟨h.1, ?_⟩
  have h2 := h.2 (by decide)
  have e1 : c8post.content.length = 300 := by decide
  have e2 : (c8post.get_platform_rules).max_length.getD 1000 = 280 := by decide
  rw [e1, e2] at h2
  exact h2

/-- C9 counterexample: CANCELLED is not terminal: publish_now accepts a
CANCELLED post and queues a force publish, and that force-published task run
moves the post's status to PUBLISHED. -/
theorem C9_counterexample :
    cancelledPost.status = PostStatus.cancelled
    ∧ publish_now cancelledPost = ApiResponse.ok ()
    ∧ (publish_post (some cancelledPost) true 0 7 "u9").1.map Post.status
        = some PostStatus.published := by decide

/-- C9 (amended): PUBLISHED is guarded — publish_now rejects it and the
scheduled task without force skips it, leaving the row unchanged; a
CANCELLED post is likewise skipped by the task without force, but publish_now
does not reject a CANCELLED post: it accepts it and queues a force publish
(which mutates the post, as the counterexample shows). -/
theorem C9_terminal_statuses (p : Post) (retries now : Nat) (u : String) :
    (p.status = PostStatus.published →
        publish_now p = ApiResponse.badRequest "This post is already published")
    ∧ (p.status = PostStatus.published ∨ p.status = PostStatus.cancelled →
        publish_post (some p) false retries now u
          = (some p, TaskResult.skippedNotScheduled))
    ∧ (p.status = PostStatus.cancelled → p.validate_for_platform = [] →
        publish_now p = ApiResponse.ok ()) := by
  refine ⟨?_, ?_, ?_⟩
  · intro h
    simp [publish_now, h]
  · intro h
    apply publish_post_skip
    rcases h with h | h <;> simp [h]
  · intro h hval
    simp [publish_now, h, hval]

/-- C9 witness: the published post is rejected and skipped; the cancelled
post is accepted by publish_now. -/
theorem C9_terminal_statuses_witness :
    publish_now publishedPost
        = ApiResponse.badRequest "This post is already published"
    ∧ publish_post (some cancelledPost) false 0 7 "u9b"
        = (some cancelledPost, TaskResult.skippedNotScheduled)
    ∧ publish_now cancelledPost = ApiResponse.ok () :=
  ⟨(C9_terminal_statuses publishedPost 0 7 "u9b").1 (by decide),
   (C9_terminal_statuses cancelledPost 0 7 "u9b").2.1 (Or.inr (by decide)),
   (C9_terminal_statuses cancelledPost 0 7 "u9b").2.2 (by decide) (by decide)⟩

/-- C10: the platform dispatch's 280-character rejection compares against the
string "twitter", which no declared SocialPlatform value equals — every
stored Twitter account carries "twitter_post" — so that branch is
unreachable for declared platforms, and a Twitter-targeted post of any
content length is reported as successfully published by this dispatch. -/
theorem C10_twitter_branch_dead :
    (∀ pf ∈ socialPlatformValues, pf ≠ "twitter")
    ∧ ∀ (content u : String) (mediaCount : Nat),
        (publish_to_platform "twitter_post" content mediaCount u).success
            = true
        ∧ (publish_to_platform "twitter_post" content mediaCount
              u).platform_post_id
            = some ("twitter_post" ++ "_" ++ u) := by
  constructor
  · decide
  · intro content u mediaCount
    have h1 : ¬(("twitter_post" : String) = "instagram_story"
        ∧ mediaCount = 0) := by
      intro h
      exact absurd h.1 (by decide)
    have h2 : ¬((("twitter_post" : String) = "facebook_page"
        ∨ ("twitter_post" : String) = "facebook_group")
        ∧ 63206 < content.length) := by
      intro h
      rcases h.1 with h | h <;> exact absurd h (by decide)
    have h3 : ¬(("twitter_post" : String) = "twitter"
        ∧ 280 < content.length) := by
      intro h
      exact absurd h.1 (by decide)
    rw [publish_to_platform, if_neg h1, if_neg h2, if_neg h3]
    exact ⟨rfl, rfl⟩

/-- C10 witness: a 300-character Twitter post sails through the dispatch. -/
theorem C10_twitter_branch_dead_witness :
    ("twitter_post" : String) ≠ "twitter"
    ∧ (publish_to_platform "twitter_post" longContent 0 "uA").success
        = true :=
  ⟨C10_twitter_branch_dead.1 "twitter_post" (by decide),
   (C10_twitter_branch_dead.2 longContent "uA" 0).1⟩

end NextPost
